import Mathlib

/-!
Shallow embedding of the ESP8266 UDP Aggregator relay firmware
(`UDP_Aggregator_GEN.ino`): wire codec, discovery and role selection,
link formation and subnet identity derivation, the per-packet forwarding
classifier, the duty-cycle telemetry transmitter, and the session
lifecycle (send-count driven deep sleep).  Octets and buffer cells are
bytes modelled as `Nat` with an explicit `% 256` wherever the firmware
stores into a `uint8` cell; 32-bit unsigned time arithmetic is modelled
with an explicit `% 2^32`.
-/

/-- Four-octet IPv4-style address; each octet is a byte value stored as `Nat`. -/
structure IPv4 where
  o0 : Nat
  o1 : Nat
  o2 : Nat
  o3 : Nat
deriving DecidableEq, Repr

/-- Well-formedness of an address: every octet is a byte. -/
def IPv4.wf (ip : IPv4) : Prop :=
  ip.o0 < 256 ∧ ip.o1 < 256 ∧ ip.o2 < 256 ∧ ip.o3 < 256

instance (ip : IPv4) : Decidable ip.wf :=
  inferInstanceAs (Decidable (_ ∧ _ ∧ _ ∧ _))

/-- UDP_PACKET_SIZE: the fixed wire size of a datagram, 9 bytes. -/
def UDP_PACKET_SIZE : Nat := 9

/-- IP_len: number of octets in an address. -/
def IP_len : Nat := 4

/-- UDP_PORT: the well-known port the firmware listens and transmits on. -/
def UDP_PORT : Nat := 4210

/-- MSG_SENT_MAX: maximum number of telemetry messages per session. -/
def MSG_SENT_MAX : Nat := 5

/-- tx_period: telemetry period in milliseconds. -/
def tx_period : Nat := 9000

/-- BS_SSID: the well-known Root (base station) network identity. -/
def BS_SSID : String := "BS_ESP8266"

/-- MOTE2BS_SSID: the well-known Relay network identity. -/
def MOTE2BS_SSID : String := "MOTE2BS_ESP8266"

/-- subnetmask_IP: the fixed netmask 255.255.255.0. -/
def subnetmask_IP : IPv4 := ⟨255, 255, 255, 0⟩

/-- Per-octet bitwise AND of two addresses, as in
`sub_network_IP[i] = WiFi.softAPIP()[i] & subnetmask_IP[i]`. -/
def maskAnd (a m : IPv4) : IPv4 :=
  ⟨a.o0 &&& m.o0, a.o1 &&& m.o1, a.o2 &&& m.o2, a.o3 &&& m.o3⟩

/-- UdpMsg: the protocol message structure {dstIP, srcIP, payload}.  The payload
array has `UDP_PACKET_SIZE - 2*IP_len = 1` cell. -/
structure UdpMsg where
  dstIP : IPv4
  srcIP : IPv4
  payload : List Nat
deriving DecidableEq, Repr

/-- parseMsg: extraction of dst and src addresses and payload from the receive
buffer: `rxMsg.dstIP[i] = rxBuffer[i]`, `rxMsg.srcIP[i] = rxBuffer[i + IP_len]`,
`rxMsg.payload[i] = rxBuffer[i + 2*IP_len]`.  Address cells are `uint8`, hence
the `% 256` on those stores; the payload cell is a `char`-to-`char` copy. -/
def parseMsg (buf : List Nat) : UdpMsg :=
  { dstIP := ⟨buf.getD 0 0 % 256, buf.getD 1 0 % 256, buf.getD 2 0 % 256, buf.getD 3 0 % 256⟩
  , srcIP := ⟨buf.getD 4 0 % 256, buf.getD 5 0 % 256, buf.getD 6 0 % 256, buf.getD 7 0 % 256⟩
  , payload := [buf.getD 8 0] }

/-- Encoder of the fixed wire layout: bytes [0..3] = destination address,
[4..7] = source address, [8..] = payload.  This is the layout that `parseMsg`
reads and that `fillBuffer` writes into the transmit buffer. -/
def encodeMsg (m : UdpMsg) : List Nat :=
  [m.dstIP.o0, m.dstIP.o1, m.dstIP.o2, m.dstIP.o3,
   m.srcIP.o0, m.srcIP.o1, m.srcIP.o2, m.srcIP.o3] ++ m.payload

/-- The relay's network-identity fields, as set once by `createLink` and the
access-point part of `setup` and then only read by `loop`. -/
structure Node where
  localIP : IPv4
  own_IP : IPv4
  sub_gateway_IP : IPv4
  sup_gateway_IP : IPv4
  sub_network_IP : IPv4
  sup_network_IP : IPv4
  sub_broadcast_IP : IPv4
deriving DecidableEq, Repr

/-- Address derivation in `createLink`: start from `WiFi.localIP()`, then
`own_IP[2] += WiFi.localIP()[3]` (a `uint8` store, hence mod 256), then
`own_IP[3] = 1`. -/
def deriveOwnIP (localIP : IPv4) : IPv4 :=
  ⟨localIP.o0, localIP.o1, (localIP.o2 + localIP.o3) % 256, 1⟩

/-- Node identity after `createLink` and the network-identity part of `setup`:
`sup_gateway_IP = WiFi.gatewayIP()` of the uplink, `own_IP` derived as above and
used to configure the soft access point (so `WiFi.softAPIP() = own_IP`),
`sub_broadcast_IP` = soft-AP address with last octet set to 255,
`sub_network_IP` = soft-AP address masked with `subnetmask_IP`, and
`sup_network_IP` = `WiFi.localIP()` masked with `subnetmask_IP`. -/
def mkNode (localIP gatewayIP : IPv4) : Node :=
  let own := deriveOwnIP localIP
  { localIP := localIP
  , own_IP := own
  , sub_gateway_IP := own
  , sup_gateway_IP := gatewayIP
  , sub_network_IP := maskAnd own subnetmask_IP
  , sup_network_IP := maskAnd localIP subnetmask_IP
  , sub_broadcast_IP := { own with o3 := 255 } }

/-- An inbound transport event: the received datagram bytes (the claims concern
the fixed `UDP_PACKET_SIZE` wire size, for which `UDP.read` fills the whole
receive buffer), `UDP.remoteIP()` and `UDP.remotePort()`. -/
structure InEvent where
  bytes : List Nat
  remoteIP : IPv4
  remotePort : Nat
deriving DecidableEq, Repr

/-- An outbound datagram: `UDP.beginPacket(dstIP, dstPort)` followed by
`UDP.write(bytes)` and `UDP.endPacket()`. -/
structure Outbound where
  dstIP : IPv4
  dstPort : Nat
  bytes : List Nat
deriving DecidableEq, Repr

/-- Zeroing of the last octet, as in `sendernet_IP[IP_len - 1] = 0`. -/
def hostZero (ip : IPv4) : IPv4 := { ip with o3 := 0 }

/-- sendernet_IP: the transport sender's address with host octet zeroed. -/
def sendernet (ev : InEvent) : IPv4 := hostZero ev.remoteIP

/-- dstnet_IP: the embedded destination address with host octet zeroed. -/
def dstnet (ev : InEvent) : IPv4 := hostZero (parseMsg ev.bytes).dstIP

/-- The four forwarding cases of the inbound branch of `loop`. -/
inductive FwdCase
  | a
  | b
  | c
  | d
deriving DecidableEq, Repr

/-- The inbound classifier of `loop`, in source order:
(a) `sendernet_IP == sub_network_IP`;
(b) `rxMsg.dstIP == WiFi.localIP()`;
(c) `dstnet_IP == sub_network_IP`;
(d) otherwise. -/
def classify (n : Node) (ev : InEvent) : FwdCase :=
  if sendernet ev = n.sub_network_IP then .a
  else if (parseMsg ev.bytes).dstIP = n.localIP then .b
  else if dstnet ev = n.sub_network_IP then .c
  else .d

/-- Outbound datagrams emitted by the inbound branch of `loop`:
case (a) sends the received bytes to `sup_gateway_IP` at the sender's port,
case (b) sends nothing, case (c) sends them to `rxMsg.dstIP`, and case (d)
sends them to `sub_broadcast_IP`. -/
def fwdOutputs (n : Node) (ev : InEvent) : List Outbound :=
  match classify n ev with
  | .a => [⟨n.sup_gateway_IP, ev.remotePort, ev.bytes⟩]
  | .b => []
  | .c => [⟨(parseMsg ev.bytes).dstIP, ev.remotePort, ev.bytes⟩]
  | .d => [⟨n.sub_broadcast_IP, ev.remotePort, ev.bytes⟩]

/-- Whether the inbound branch calls `actionUponRx` (local delivery), which
happens exactly in case (b). -/
def localDeliver (n : Node) (ev : InEvent) : Bool :=
  decide (classify n ev = FwdCase.b)

/-- Classifier as the specification words it: case (b) tests the embedded
destination against ownAddress, the address derived in Link Formation
(`own_IP`), instead of the uplink-assigned local address.  Stated from the
spec's words, for comparison with `classify`. -/
def specClassify (n : Node) (ev : InEvent) : FwdCase :=
  if sendernet ev = n.sub_network_IP then .a
  else if (parseMsg ev.bytes).dstIP = n.own_IP then .b
  else if dstnet ev = n.sub_network_IP then .c
  else .d

/-- WiFi.SSID(i) over the one-shot scan list of (name, signal strength) pairs. -/
def ssidAt (nets : List (String × Int)) (i : Nat) : String :=
  (nets.getD i ("", 0)).1

/-- WiFi.RSSI(i) over the one-shot scan list. -/
def rssiAt (nets : List (String × Int)) (i : Nat) : Int :=
  (nets.getD i ("", 0)).2

/-- The base-station loop of `setup`: scanning i = n-1 down to 0 and breaking at
the first index whose SSID equals `BS_SSID`; the decision only depends on
whether such an index exists. -/
def hasBS (nets : List (String × Int)) : Bool :=
  nets.any (fun p => p.1 == BS_SSID)

/-- Body of the MOTE2BS loop at index i: when `WiFi.SSID(i) == MOTE2BS_SSID`
and `WiFi.RSSI(i) > max_rssi`, the state (max_rssi_idx, max_rssi) is updated
to (i, RSSI(i)); otherwise it is kept. -/
def relayStep (nets : List (String × Int)) (st : Int × Int) (i : Nat) : Int × Int :=
  if ssidAt nets i = MOTE2BS_SSID then
    if rssiAt nets i > st.2 then ((i : Int), rssiAt nets i) else st
  else st

/-- The MOTE2BS loop `for (i = n - 1; i >= 0; i--)`: `scanDown nets k st` runs
the body for i = k-1, k-2, ..., 0 starting from state st. -/
def scanDown (nets : List (String × Int)) : Nat → Int × Int → Int × Int
  | 0, st => st
  | k + 1, st => scanDown nets k (relayStep nets st k)

/-- Result of the relay scan from the initial state
`max_rssi_idx = -1`, `max_rssi = -1000`. -/
def relayScan (nets : List (String × Int)) : Int × Int :=
  scanDown nets nets.length (-1, -1000)

/-- The uplink decision `setup` makes from the one-shot scan list. -/
inductive UplinkDecision
  | connectAsRootClient
  | connectViaRelay (idx : Nat)
  | noUplinkFound
deriving DecidableEq, Repr

/-- Discovery and role selection: a visible `BS_SSID` network is chosen
unconditionally; otherwise the relay scan's winner, if any index was adopted;
otherwise no uplink is found. -/
def discover (nets : List (String × Int)) : UplinkDecision :=
  if hasBS nets then .connectAsRootClient
  else if 0 ≤ (relayScan nets).1 then .connectViaRelay (relayScan nets).1.toNat
  else .noUplinkFound

/-- Control-flow record of the discovery section of `setup`: the `createLink`
calls made, with their (connectToBS, network_idx) arguments, and whether
`ESP.deepSleep` was invoked instead. -/
structure SetupResult where
  createLinkCalls : List (Bool × Nat)
  slept : Bool
deriving DecidableEq, Repr

/-- The discovery section of `setup`: a visible base station leads to
`createLink(&connectToBS, 0)` with `connectToBS = true`; otherwise a successful
relay scan leads to `createLink(&connectToBS, max_rssi_idx)` with
`connectToBS = false`; otherwise `ESP.deepSleep(DEEP_SLEEP_US)` is invoked
without any `createLink` call. -/
def setupRun (nets : List (String × Int)) : SetupResult :=
  if hasBS nets then ⟨[(true, 0)], false⟩
  else if 0 ≤ (relayScan nets).1 then ⟨[(false, (relayScan nets).1.toNat)], false⟩
  else ⟨[], true⟩

/-- fillBuffer: `txBuffer[i] = sup_gateway_IP[i]`,
`txBuffer[i + IP_len] = WiFi.localIP()[i]`, and the dummy payload byte 65
('A') at offset `2*IP_len`. -/
def fillBuffer (n : Node) : List Nat :=
  [n.sup_gateway_IP.o0, n.sup_gateway_IP.o1, n.sup_gateway_IP.o2, n.sup_gateway_IP.o3,
   n.localIP.o0, n.localIP.o1, n.localIP.o2, n.localIP.o3, 65]

/-- U32: modulus of 32-bit unsigned (`unsigned long`) arithmetic. -/
def U32 : Nat := 4294967296

/-- The 32-bit unsigned subtraction `currentMillis - previousMillis`. -/
def elapsedMs (now prev : Nat) : Nat :=
  (now % U32 + U32 - prev % U32) % U32

/-- The mutable globals touched by `loop`, together with the write-once node
identity they sit next to. -/
structure MachineState where
  node : Node
  rxBuffer : List Nat
  rxSize : Nat
  rxMsg : UdpMsg
  txBuffer : List Nat
  sendernet_IP : IPv4
  dstnet_IP : IPv4
  remote_PORT : Nat
  previousMillis : Nat
  msg_sent_cnt : Nat
deriving DecidableEq, Repr

/-- Observable output of one pass of `loop`: the datagrams sent, whether
`actionUponRx` ran, whether the telemetry timer fired, and whether
`ESP.deepSleep` was invoked at the end of the pass. -/
structure IterOut where
  sent : List Outbound
  deliveredLocal : Bool
  fired : Bool
  slept : Bool
deriving DecidableEq, Repr

/-- One pass of `loop`: the inbound branch (when a datagram is pending), then
the telemetry-timer branch, then the sleep-threshold check, in source order.
`now` is the value of `millis()` during the pass (the firmware reads `millis()`
twice in the timer branch; both reads are modelled by `now`).  A pass whose
output has `slept = true` invokes `ESP.deepSleep`, which does not return
within the session. -/
def loopStep (now : Nat) (ev : Option InEvent) (st : MachineState) : MachineState × IterOut :=
  let st1 := match ev with
    | none => st
    | some e =>
        { st with
          rxBuffer := e.bytes
        , rxSize := e.bytes.length
        , rxMsg := parseMsg e.bytes
        , remote_PORT := e.remotePort
        , sendernet_IP := sendernet e
        , dstnet_IP := dstnet e }
  let sentFwd := match ev with
    | none => []
    | some e => fwdOutputs st.node e
  let delivered := match ev with
    | none => false
    | some e => localDeliver st.node e
  let fires := decide (tx_period ≤ elapsedMs now st1.previousMillis)
  let st2 := if fires then
      { st1 with
        previousMillis := now % U32
      , msg_sent_cnt := st1.msg_sent_cnt + 1
      , txBuffer := fillBuffer st1.node }
    else st1
  let sentTx := if fires then [⟨st1.node.sup_gateway_IP, UDP_PORT, fillBuffer st1.node⟩] else []
  (st2, ⟨sentFwd ++ sentTx, delivered, fires, decide (st2.msg_sent_cnt = MSG_SENT_MAX)⟩)

/-- Repeated passes of `loop` over a list of (millis value, pending datagram)
inputs, stopping after a pass that invokes `ESP.deepSleep`. -/
def runLoop : MachineState → List (Nat × Option InEvent) → MachineState × List IterOut
  | st, [] => (st, [])
  | st, (now, ev) :: rest =>
      let p := loopStep now ev st
      if p.2.slept then (p.1, [p.2])
      else
        let r := runLoop p.1 rest
        (r.1, p.2 :: r.2)

/-- Number of passes in a trace whose telemetry timer fired. -/
def countFired (l : List IterOut) : Nat :=
  (l.filter (fun o => o.fired)).length

/-- State at the end of `setup`: zero-initialized buffers, counters and scratch
globals next to the node identity just formed. -/
def initState (n : Node) : MachineState :=
  { node := n
  , rxBuffer := List.replicate UDP_PACKET_SIZE 0
  , rxSize := 0
  , rxMsg := ⟨⟨0, 0, 0, 0⟩, ⟨0, 0, 0, 0⟩, [0]⟩
  , txBuffer := List.replicate UDP_PACKET_SIZE 0
  , sendernet_IP := ⟨0, 0, 0, 0⟩
  , dstnet_IP := ⟨0, 0, 0, 0⟩
  , remote_PORT := 0
  , previousMillis := 0
  , msg_sent_cnt := 0 }

/-- The node used in the concrete scenarios: uplink-assigned local address
192.168.4.7, uplink gateway 192.168.4.1, hence derived own address
192.168.11.1 and downstream subnet 192.168.11.0. -/
def nodeA : Node := mkNode ⟨192, 168, 4, 7⟩ ⟨192, 168, 4, 1⟩

/-- Concrete inbound event used against C1 as stated: embedded destination
192.168.11.1 is the derived own address, the transport sender 192.168.4.1 lies
outside the downstream subnet. -/
def evOwnDst : InEvent := ⟨[192, 168, 11, 1, 192, 168, 4, 50, 65], ⟨192, 168, 4, 1⟩, 4210⟩

/-- Concrete inbound event used against C2 as stated: like `evOwnDst` with a
different embedded source. -/
def evOwnDst2 : InEvent := ⟨[192, 168, 11, 1, 10, 0, 0, 9, 66], ⟨192, 168, 4, 1⟩, 4210⟩

/-- Concrete inbound event whose embedded destination is the uplink-assigned
local address 192.168.4.7, sent from outside the downstream subnet. -/
def evLocalDst : InEvent := ⟨[192, 168, 4, 7, 10, 0, 0, 9, 65], ⟨10, 0, 0, 2⟩, 4210⟩

/-- Concrete inbound event from a directly attached child 192.168.11.9. -/
def evChild : InEvent := ⟨[10, 0, 0, 9, 192, 168, 11, 9, 65], ⟨192, 168, 11, 9⟩, 4210⟩

/-- Scan list with a single Relay network at the sentinel strength -1000. -/
def netsSentinel : List (String × Int) := [("MOTE2BS_ESP8266", -1000)]

/-- Scan list with two Relay networks, no Root. -/
def netsRelay : List (String × Int) := [("MOTE2BS_ESP8266", -80), ("MOTE2BS_ESP8266", -70)]

/-- Five loop passes at millis values 9000, 18000, ..., 45000, with no inbound
datagrams: each pass fires the telemetry timer. -/
def inputsFive : List (Nat × Option InEvent) :=
  [(9000, none), (18000, none), (27000, none), (36000, none), (45000, none)]

/-- Masking a byte with 255 is the identity. -/
theorem byte_and_255 (x : Nat) (hx : x < 256) : x &&& 255 = x := by
  have h := Nat.and_pow_two_sub_one_eq_mod x 8
  norm_num at h
  rw [h, Nat.mod_eq_of_lt hx]

/-- A list of length 9 is a literal nine-element list. -/
theorem exists_nine_bytes (l : List Nat) (h : l.length = 9) :
    ∃ b0 b1 b2 b3 b4 b5 b6 b7 b8, l = [b0, b1, b2, b3, b4, b5, b6, b7, b8] := by
  rcases l with _ | ⟨a0, _ | ⟨a1, _ | ⟨a2, _ | ⟨a3, _ | ⟨a4, _ | ⟨a5, _ | ⟨a6, _ | ⟨a7, _ | ⟨a8, t⟩⟩⟩⟩⟩⟩⟩⟩⟩ <;>
    simp only [List.length] at h <;> try omega
  have ht : t = [] := by
    have : t.length = 0 := by omega
    exact List.length_eq_zero.mp this
  exact ⟨a0, a1, a2, a3, a4, a5, a6, a7, a8, by rw [ht]⟩

/-- parseMsg on a literal nine-byte buffer. -/
theorem parseMsg_nine (b0 b1 b2 b3 b4 b5 b6 b7 b8 : Nat) :
    parseMsg [b0, b1, b2, b3, b4, b5, b6, b7, b8] =
      ⟨⟨b0 % 256, b1 % 256, b2 % 256, b3 % 256⟩,
       ⟨b4 % 256, b5 % 256, b6 % 256, b7 % 256⟩, [b8]⟩ := rfl

/-- C1 counterexample: at the concrete event `evOwnDst` against node `nodeA`,
the spec-worded case (b) applies (sender outside the downstream subnet,
embedded destination = derived ownAddress 192.168.11.1), so the claim predicts
zero outbound packets; the code's classifier lands in case (c) and emits one. -/
theorem C1_spec_case_b_emits_one :
    specClassify nodeA evOwnDst = FwdCase.b ∧
    classify nodeA evOwnDst = FwdCase.c ∧
    (fwdOutputs nodeA evOwnDst).length = 1 := by decide

/-- C1 (amended): for every inbound event of the fixed 9-byte wire size and
every node state, exactly one of the four cases applies, in source priority
order - with case (b) testing the embedded destination against the
uplink-assigned local address (`WiFi.localIP()`), not the Link-Formation
derived `own_IP` - and the engine emits exactly one outbound packet in cases
a, c, d and zero in case b. -/
theorem C1_classifier_total_exclusive (n : Node) (ev : InEvent)
    (hlen : ev.bytes.length = UDP_PACKET_SIZE) :
    (classify n ev = FwdCase.a ↔ sendernet ev = n.sub_network_IP) ∧
    (classify n ev = FwdCase.b ↔
      sendernet ev ≠ n.sub_network_IP ∧ (parseMsg ev.bytes).dstIP = n.localIP) ∧
    (classify n ev = FwdCase.c ↔
      sendernet ev ≠ n.sub_network_IP ∧ (parseMsg ev.bytes).dstIP ≠ n.localIP ∧
      dstnet ev = n.sub_network_IP) ∧
    (classify n ev = FwdCase.d ↔
      sendernet ev ≠ n.sub_network_IP ∧ (parseMsg ev.bytes).dstIP ≠ n.localIP ∧
      dstnet ev ≠ n.sub_network_IP) ∧
    (fwdOutputs n ev).length = (if classify n ev = FwdCase.b then 0 else 1) := by
  unfold fwdOutputs classify
  split_ifs with h1 h2 h3 <;> simp_all

/-- C1 witness: the amended characterization evaluated at the concrete node
`nodeA` and event `evOwnDst`. -/
theorem C1_classifier_total_exclusive_witness :
    evOwnDst.bytes.length = UDP_PACKET_SIZE ∧
    (fwdOutputs nodeA evOwnDst).length =
      (if classify nodeA evOwnDst = FwdCase.b then 0 else 1) :=
  ⟨by decide, (C1_classifier_total_exclusive nodeA evOwnDst (by decide)).2.2.2.2⟩

/-- C2 counterexample: at the concrete event `evOwnDst2` the transport sender
192.168.4.1 is outside the downstream subnet 192.168.11.0 and the embedded
destination equals the derived ownAddress 192.168.11.1, yet `actionUponRx` is
not invoked and one outbound packet is emitted. -/
theorem C2_own_address_not_delivered :
    sendernet evOwnDst2 ≠ nodeA.sub_network_IP ∧
    (parseMsg evOwnDst2.bytes).dstIP = nodeA.own_IP ∧
    localDeliver nodeA evOwnDst2 = false ∧
    (fwdOutputs nodeA evOwnDst2).length = 1 := by decide

/-- C2 (amended): an inbound packet whose transport sender lies outside the
downstream subnet and whose embedded destination equals the node's
uplink-assigned local address (`WiFi.localIP()`, not the Link-Formation
derived `own_IP`) is delivered locally via `actionUponRx` and produces zero
outbound packets. -/
theorem C2_local_delivery (n : Node) (ev : InEvent)
    (hs : sendernet ev ≠ n.sub_network_IP)
    (hd : (parseMsg ev.bytes).dstIP = n.localIP) :
    localDeliver n ev = true ∧ fwdOutputs n ev = [] := by
  unfold localDeliver fwdOutputs classify
  split_ifs <;> simp_all

/-- C2 witness: local delivery at the concrete node `nodeA` and event
`evLocalDst`, whose embedded destination is the uplink local address
192.168.4.7. -/
theorem C2_local_delivery_witness :
    (sendernet evLocalDst ≠ nodeA.sub_network_IP ∧
      (parseMsg evLocalDst.bytes).dstIP = nodeA.localIP) ∧
    (localDeliver nodeA evLocalDst = true ∧ fwdOutputs nodeA evLocalDst = []) :=
  ⟨⟨by decide, by decide⟩, C2_local_delivery nodeA evLocalDst (by decide) (by decide)⟩

/-- C3: for a node formed by Link Formation, every forwarded datagram carries
exactly the received bytes at the original transport sender port; case (a)
sends to the upstream neighbor (the acquired gateway), case (c) to the embedded
destination bytes [0..3], and case (d) to the downstream broadcast address,
which is the downstream subnet prefix with host octet 255. -/
theorem C3_forwarding_targets (localIP gatewayIP : IPv4) (n : Node) (ev : InEvent)
    (hn : n = mkNode localIP gatewayIP) (hwf : localIP.wf)
    (hlen : ev.bytes.length = UDP_PACKET_SIZE) (hb : ∀ x ∈ ev.bytes, x < 256) :
    (classify n ev = FwdCase.a →
      fwdOutputs n ev = [⟨n.sup_gateway_IP, ev.remotePort, ev.bytes⟩] ∧
      n.sup_gateway_IP = gatewayIP) ∧
    (classify n ev = FwdCase.c →
      fwdOutputs n ev = [⟨(parseMsg ev.bytes).dstIP, ev.remotePort, ev.bytes⟩] ∧
      (parseMsg ev.bytes).dstIP =
        ⟨ev.bytes.getD 0 0, ev.bytes.getD 1 0, ev.bytes.getD 2 0, ev.bytes.getD 3 0⟩) ∧
    (classify n ev = FwdCase.d →
      fwdOutputs n ev = [⟨n.sub_broadcast_IP, ev.remotePort, ev.bytes⟩] ∧
      n.sub_broadcast_IP =
        ⟨n.sub_network_IP.o0, n.sub_network_IP.o1, n.sub_network_IP.o2, 255⟩) := by
  obtain ⟨h0, h1, h2, h3⟩ := hwf
  obtain ⟨b0, b1, b2, b3, b4, b5, b6, b7, b8, hbytes⟩ :=
    exists_nine_bytes ev.bytes hlen
  have hband : ∀ x ∈ ev.bytes, x < 256 := hb
  rw [hbytes] at hband
  simp only [List.mem_cons, List.not_mem_nil, or_false, forall_eq_or_imp, forall_eq] at hband
  obtain ⟨hb0, hb1, hb2, hb3, hb4, hb5, hb6, hb7, hb8⟩ := hband
  refine ⟨fun hc => ⟨?_, ?_⟩, fun hc => ⟨?_, ?_⟩, fun hc => ⟨?_, ?_⟩⟩
  · unfold fwdOutputs
    rw [hc]
  · rw [hn]; rfl
  · unfold fwdOutputs
    rw [hc]
  · rw [hbytes, parseMsg_nine]
    simp [Nat.mod_eq_of_lt, hb0, hb1, hb2, hb3]
  · unfold fwdOutputs
    rw [hc]
  · rw [hn]
    show ({ deriveOwnIP localIP with o3 := 255 } : IPv4) =
      ⟨(maskAnd (deriveOwnIP localIP) subnetmask_IP).o0,
       (maskAnd (deriveOwnIP localIP) subnetmask_IP).o1,
       (maskAnd (deriveOwnIP localIP) subnetmask_IP).o2, 255⟩
    unfold deriveOwnIP maskAnd subnetmask_IP
    simp only [IPv4.mk.injEq]
    refine ⟨(byte_and_255 _ h0).symm, (byte_and_255 _ h1).symm,
      (byte_and_255 _ (Nat.mod_lt _ (by norm_num))).symm, trivial⟩

/-- C3 witness: case (a) forwarding at the concrete node `nodeA` and the
child event `evChild`. -/
theorem C3_forwarding_targets_witness :
    (classify nodeA evChild = FwdCase.a) ∧
    (fwdOutputs nodeA evChild = [⟨nodeA.sup_gateway_IP, evChild.remotePort, evChild.bytes⟩] ∧
      nodeA.sup_gateway_IP = ⟨192, 168, 4, 1⟩) :=
  ⟨by decide,
    (C3_forwarding_targets ⟨192, 168, 4, 7⟩ ⟨192, 168, 4, 1⟩ nodeA evChild rfl
      (by decide) (by decide) (by decide)).1 (by decide)⟩

/-- C5: Link Formation records the acquired gateway address as the upstream
neighbor (`sup_gateway_IP`), derives `own_IP` from the uplink-assigned local
address by adding its fourth (host-id) octet into the third octet modulo 256
and fixing the fourth octet to 1, and the downstream subnet
(`sub_network_IP`) shares `own_IP`'s prefix. -/
theorem C5_link_formation (localIP gatewayIP : IPv4) (hwf : localIP.wf) :
    (mkNode localIP gatewayIP).sup_gateway_IP = gatewayIP ∧
    (mkNode localIP gatewayIP).own_IP =
      ⟨localIP.o0, localIP.o1, (localIP.o2 + localIP.o3) % 256, 1⟩ ∧
    (mkNode localIP gatewayIP).sub_network_IP =
      ⟨(mkNode localIP gatewayIP).own_IP.o0, (mkNode localIP gatewayIP).own_IP.o1,
       (mkNode localIP gatewayIP).own_IP.o2, 0⟩ := by
  obtain ⟨h0, h1, h2, h3⟩ := hwf
  refine ⟨rfl, rfl, ?_⟩
  show maskAnd (deriveOwnIP localIP) subnetmask_IP = _
  unfold deriveOwnIP maskAnd subnetmask_IP
  simp only [IPv4.mk.injEq]
  exact ⟨byte_and_255 _ h0, byte_and_255 _ h1,
    byte_and_255 _ (Nat.mod_lt _ (by norm_num)), rfl⟩

/-- C5 witness: the derivation evaluated at uplink address 192.168.4.7 and
gateway 192.168.4.1. -/
theorem C5_link_formation_witness :
    (IPv4.wf ⟨192, 168, 4, 7⟩) ∧
    (mkNode ⟨192, 168, 4, 7⟩ ⟨192, 168, 4, 1⟩).own_IP =
      ⟨192, 168, (4 + 7) % 256, 1⟩ :=
  ⟨by decide, (C5_link_formation ⟨192, 168, 4, 7⟩ ⟨192, 168, 4, 1⟩ (by decide)).2.1⟩

/-- C9: decoding a well-formed 9-byte datagram maps bytes [0..3] to the
destination address, [4..7] to the source address and [8..] to the payload,
and re-encoding the decoded message reproduces the original bytes. -/
theorem C9_codec_roundtrip (bytes : List Nat)
    (hlen : bytes.length = UDP_PACKET_SIZE) (hb : ∀ x ∈ bytes, x < 256) :
    (parseMsg bytes).dstIP =
      ⟨bytes.getD 0 0, bytes.getD 1 0, bytes.getD 2 0, bytes.getD 3 0⟩ ∧
    (parseMsg bytes).srcIP =
      ⟨bytes.getD 4 0, bytes.getD 5 0, bytes.getD 6 0, bytes.getD 7 0⟩ ∧
    (parseMsg bytes).payload = [bytes.getD 8 0] ∧
    encodeMsg (parseMsg bytes) = bytes := by
  obtain ⟨b0, b1, b2, b3, b4, b5, b6, b7, b8, hbytes⟩ :=
    exists_nine_bytes bytes hlen
  subst hbytes
  simp only [List.mem_cons, List.not_mem_nil, or_false, forall_eq_or_imp, forall_eq] at hb
  obtain ⟨hb0, hb1, hb2, hb3, hb4, hb5, hb6, hb7, hb8⟩ := hb
  rw [parseMsg_nine]
  refine ⟨?_, ?_, rfl, ?_⟩ <;>
    simp [encodeMsg, Nat.mod_eq_of_lt, hb0, hb1, hb2, hb3, hb4, hb5, hb6, hb7]

/-- C9 witness: the codec roundtrip on the concrete datagram of `evChild`. -/
theorem C9_codec_roundtrip_witness :
    (evChild.bytes.length = UDP_PACKET_SIZE ∧ ∀ x ∈ evChild.bytes, x < 256) ∧
    encodeMsg (parseMsg evChild.bytes) = evChild.bytes :=
  ⟨⟨by decide, by decide⟩,
    (C9_codec_roundtrip evChild.bytes (by decide) (by decide)).2.2.2⟩

/-- Invariant of the descending relay scan: starting from threshold state st,
`scanDown nets i st` either keeps st (no Relay entry at an index below i beats
the threshold) or returns the Relay entry below i with the strictly greatest
signal strength, ties held by the highest index, i.e. the entry scanned first. -/
theorem scanDown_spec (nets : List (String × Int)) :
    ∀ (i : Nat) (st : Int × Int),
      (scanDown nets i st = st ∧
        ∀ j, j < i → ssidAt nets j = MOTE2BS_SSID → rssiAt nets j ≤ st.2) ∨
      (∃ j, j < i ∧ ssidAt nets j = MOTE2BS_SSID ∧ st.2 < rssiAt nets j ∧
        scanDown nets i st = ((j : Int), rssiAt nets j) ∧
        (∀ k, k < i → ssidAt nets k = MOTE2BS_SSID → rssiAt nets k ≤ rssiAt nets j) ∧
        (∀ k, k < i → j < k → ssidAt nets k = MOTE2BS_SSID →
          rssiAt nets k < rssiAt nets j)) := by
  intro i
  induction i with
  | zero =>
      intro st
      exact Or.inl ⟨rfl, fun j hj => absurd hj (Nat.not_lt_zero j)⟩
  | succ m ih =>
      intro st
      have hstep : scanDown nets (m + 1) st = scanDown nets m (relayStep nets st m) := rfl
      by_cases hssid : ssidAt nets m = MOTE2BS_SSID
      · by_cases hgt : st.2 < rssiAt nets m
        · have hrs : relayStep nets st m = ((m : Int), rssiAt nets m) := by
            unfold relayStep
            rw [if_pos hssid, if_pos hgt]
          rcases ih ((m : Int), rssiAt nets m) with ⟨heq, hall⟩ |
            ⟨j, hj, hjssid, hjgt, heq, hmax, hstrict⟩
          · refine Or.inr ⟨m, Nat.lt_succ_self m, hssid, hgt, ?_, ?_, ?_⟩
            · rw [hstep, hrs, heq]
            · intro k hk hkssid
              rcases Nat.lt_succ_iff_lt_or_eq.mp hk with hk' | rfl
              · exact hall k hk' hkssid
              · exact le_refl _
            · intro k hk hmk hkssid
              omega
          · refine Or.inr ⟨j, Nat.lt_succ_of_lt hj, hjssid, lt_trans hgt hjgt, ?_, ?_, ?_⟩
            · rw [hstep, hrs, heq]
            · intro k hk hkssid
              rcases Nat.lt_succ_iff_lt_or_eq.mp hk with hk' | rfl
              · exact hmax k hk' hkssid
              · exact le_of_lt hjgt
            · intro k hk hjk hkssid
              rcases Nat.lt_succ_iff_lt_or_eq.mp hk with hk' | rfl
              · exact hstrict k hk' hjk hkssid
              · exact hjgt
        · have hrs : relayStep nets st m = st := by
            unfold relayStep
            rw [if_pos hssid, if_neg hgt]
          push_neg at hgt
          rcases ih st with ⟨heq, hall⟩ | ⟨j, hj, hjssid, hjgt, heq, hmax, hstrict⟩
          · refine Or.inl ⟨by rw [hstep, hrs, heq], ?_⟩
            intro k hk hkssid
            rcases Nat.lt_succ_iff_lt_or_eq.mp hk with hk' | rfl
            · exact hall k hk' hkssid
            · exact hgt
          · refine Or.inr ⟨j, Nat.lt_succ_of_lt hj, hjssid, hjgt,
              by rw [hstep, hrs, heq], ?_, ?_⟩
            · intro k hk hkssid
              rcases Nat.lt_succ_iff_lt_or_eq.mp hk with hk' | rfl
              · exact hmax k hk' hkssid
              · exact le_trans hgt (le_of_lt hjgt)
            · intro k hk hjk hkssid
              rcases Nat.lt_succ_iff_lt_or_eq.mp hk with hk' | rfl
              · exact hstrict k hk' hjk hkssid
              · exact lt_of_le_of_lt hgt hjgt
      · have hrs : relayStep nets st m = st := by
          unfold relayStep
          rw [if_neg hssid]
        rcases ih st with ⟨heq, hall⟩ | ⟨j, hj, hjssid, hjgt, heq, hmax, hstrict⟩
        · refine Or.inl ⟨by rw [hstep, hrs, heq], ?_⟩
          intro k hk hkssid
          rcases Nat.lt_succ_iff_lt_or_eq.mp hk with hk' | rfl
          · exact hall k hk' hkssid
          · exact absurd hkssid hssid
        · refine Or.inr ⟨j, Nat.lt_succ_of_lt hj, hjssid, hjgt,
            by rw [hstep, hrs, heq], ?_, ?_⟩
          · intro k hk hkssid
            rcases Nat.lt_succ_iff_lt_or_eq.mp hk with hk' | rfl
            · exact hmax k hk' hkssid
            · exact absurd hkssid hssid
          · intro k hk hjk hkssid
            rcases Nat.lt_succ_iff_lt_or_eq.mp hk with hk' | rfl
            · exact hstrict k hk' hjk hkssid
            · exact absurd hkssid hssid

/-- C4 counterexample: the scan list `netsSentinel` holds one network matching
the Relay identity, at signal strength -1000, and no Root network; the claim
requires that Relay candidate to be selected, but Discovery, whose running
maximum starts at the sentinel -1000 and only moves on a strict increase,
yields NoUplinkFound. -/
theorem C4_sentinel_relay_ignored :
    ssidAt netsSentinel 0 = MOTE2BS_SSID ∧
    hasBS netsSentinel = false ∧
    discover netsSentinel ≠ UplinkDecision.connectViaRelay 0 ∧
    discover netsSentinel = UplinkDecision.noUplinkFound := by decide

/-- C4 (amended): a network matching the Root identity is selected
unconditionally; otherwise, among Relay-identity entries whose signal strength
is strictly above the scan's initial sentinel (-1000), the candidate with the
strictly greatest strength is selected, scanning in descending index order so
that an equal-strength candidate scanned later (at a lower index) never
replaces the current winner; when no Root entry is visible and no Relay entry
exceeds the sentinel, the result is NoUplinkFound. -/
theorem C4_discovery_selection (nets : List (String × Int)) :
    (hasBS nets = true → discover nets = UplinkDecision.connectAsRootClient) ∧
    (hasBS nets = false →
      (∃ j, j < nets.length ∧ ssidAt nets j = MOTE2BS_SSID ∧
        (-1000 : Int) < rssiAt nets j) →
      ∃ j, j < nets.length ∧ discover nets = UplinkDecision.connectViaRelay j ∧
        ssidAt nets j = MOTE2BS_SSID ∧ (-1000 : Int) < rssiAt nets j ∧
        (∀ k, k < nets.length → ssidAt nets k = MOTE2BS_SSID →
          rssiAt nets k ≤ rssiAt nets j) ∧
        (∀ k, k < nets.length → j < k → ssidAt nets k = MOTE2BS_SSID →
          rssiAt nets k < rssiAt nets j)) ∧
    (hasBS nets = false →
      (∀ j, j < nets.length → ssidAt nets j = MOTE2BS_SSID →
        rssiAt nets j ≤ (-1000 : Int)) →
      discover nets = UplinkDecision.noUplinkFound) := by
  refine ⟨?_, ?_, ?_⟩
  · intro h
    unfold discover
    rw [if_pos h]
  · intro hbs hex
    rcases scanDown_spec nets nets.length (-1, -1000) with ⟨heq, hall⟩ |
      ⟨j, hj, hssid, hgt, heq, hmax, hstrict⟩
    · exfalso
      obtain ⟨j, hj, hjssid, hjgt⟩ := hex
      exact absurd (hall j hj hjssid) (not_le.mpr hjgt)
    · refine ⟨j, hj, ?_, hssid, hgt, hmax, hstrict⟩
      have hscan : relayScan nets = ((j : Int), rssiAt nets j) := heq
      unfold discover
      rw [if_neg (by simp [hbs]), hscan, if_pos (Int.natCast_nonneg j)]
      simp
  · intro hbs hall'
    rcases scanDown_spec nets nets.length (-1, -1000) with ⟨heq, _⟩ |
      ⟨j, hj, hssid, hgt, _, _, _⟩
    · have hscan : relayScan nets = (-1, -1000) := heq
      unfold discover
      rw [if_neg (by simp [hbs]), hscan, if_neg (by norm_num)]
    · exact absurd (hall' j hj hssid) (not_le.mpr hgt)

/-- C4 witness: on the scan list `netsRelay` (two Relay networks, no Root),
Discovery selects the entry at index 1, strength -70, scanned before and
strictly stronger than the entry at index 0. -/
theorem C4_discovery_selection_witness :
    hasBS netsRelay = false ∧
    (∃ j, j < netsRelay.length ∧
      discover netsRelay = UplinkDecision.connectViaRelay j ∧
      ssidAt netsRelay j = MOTE2BS_SSID ∧ (-1000 : Int) < rssiAt netsRelay j ∧
      (∀ k, k < netsRelay.length → ssidAt netsRelay k = MOTE2BS_SSID →
        rssiAt netsRelay k ≤ rssiAt netsRelay j) ∧
      (∀ k, k < netsRelay.length → j < k → ssidAt netsRelay k = MOTE2BS_SSID →
        rssiAt netsRelay k < rssiAt netsRelay j)) :=
  ⟨by decide,
    (C4_discovery_selection netsRelay).2.1 (by decide) ⟨1, by decide, by decide, by decide⟩⟩

/-- C6: when Discovery yields NoUplinkFound, the discovery section of `setup`
invokes the deep-sleep request and makes zero `createLink` calls. -/
theorem C6_no_uplink_sleeps (nets : List (String × Int))
    (h : discover nets = UplinkDecision.noUplinkFound) :
    (setupRun nets).slept = true ∧ (setupRun nets).createLinkCalls = [] := by
  unfold discover at h
  unfold setupRun
  split_ifs at h ⊢ with h1 h2 <;> simp_all

/-- C6 witness: the empty scan list yields NoUplinkFound and an immediate
sleep with zero connection attempts. -/
theorem C6_no_uplink_sleeps_witness :
    discover ([] : List (String × Int)) = UplinkDecision.noUplinkFound ∧
    ((setupRun ([] : List (String × Int))).slept = true ∧
      (setupRun ([] : List (String × Int))).createLinkCalls = []) :=
  ⟨by decide, C6_no_uplink_sleeps [] (by decide)⟩

/-- Counter, sleep and identity behaviour of a single pass of `loop`: the send
counter grows by one exactly when the telemetry timer fired, deep sleep is
invoked exactly when the counter then equals MSG_SENT_MAX, and the node
identity is untouched. -/
theorem loopStep_cnt (now : Nat) (ev : Option InEvent) (st : MachineState) :
    (loopStep now ev st).1.msg_sent_cnt =
      st.msg_sent_cnt + (if (loopStep now ev st).2.fired = true then 1 else 0) ∧
    ((loopStep now ev st).2.slept = true ↔
      (loopStep now ev st).1.msg_sent_cnt = MSG_SENT_MAX) ∧
    (loopStep now ev st).1.node = st.node := by
  unfold loopStep
  cases ev <;> dsimp only <;> split_ifs <;> simp_all

/-- countFired of the empty trace. -/
theorem countFired_nil : countFired [] = 0 := rfl

/-- countFired of a trace extended at the front. -/
theorem countFired_cons (o : IterOut) (l : List IterOut) :
    countFired (o :: l) = (if o.fired = true then 1 else 0) + countFired l := by
  simp only [countFired, List.filter_cons]
  split_ifs <;> simp [Nat.add_comm]

/-- Aggregate behaviour of a run of `loop` passes: the final counter equals the
starting counter plus the number of fired passes, the node identity is
preserved, and a pass invokes deep sleep exactly when the counter, i.e. the
starting counter plus the fired passes up to and including that pass, equals
MSG_SENT_MAX. -/
theorem runLoop_spec (inputs : List (Nat × Option InEvent)) :
    ∀ st : MachineState,
      (runLoop st inputs).1.msg_sent_cnt =
        st.msg_sent_cnt + countFired (runLoop st inputs).2 ∧
      (runLoop st inputs).1.node = st.node ∧
      ∀ k (h : k < (runLoop st inputs).2.length),
        (((runLoop st inputs).2.get ⟨k, h⟩).slept = true ↔
          st.msg_sent_cnt + countFired ((runLoop st inputs).2.take (k + 1)) =
            MSG_SENT_MAX) := by
  induction inputs with
  | nil =>
      intro st
      refine ⟨by simp [runLoop, countFired], rfl, ?_⟩
      intro k h
      simp [runLoop] at h
  | cons p rest ih =>
      intro st
      obtain ⟨now, ev⟩ := p
      have hcnt := (loopStep_cnt now ev st).1
      have hslept := (loopStep_cnt now ev st).2.1
      have hnode := (loopStep_cnt now ev st).2.2
      by_cases hsl : (loopStep now ev st).2.slept = true
      · have hrun : runLoop st ((now, ev) :: rest) =
            ((loopStep now ev st).1, [(loopStep now ev st).2]) := by
          simp only [runLoop]
          rw [if_pos hsl]
        rw [hrun]
        refine ⟨?_, hnode, ?_⟩
        · simpa [countFired_cons, countFired_nil] using hcnt
        · intro k h
          simp only [List.length_cons, List.length_nil] at h
          match k, h with
          | 0, _ =>
              simp only [List.get, List.take, countFired_cons, countFired_nil, Nat.add_zero]
              rw [← hcnt]
              exact hslept
      · have hrun : runLoop st ((now, ev) :: rest) =
            ((runLoop (loopStep now ev st).1 rest).1,
              (loopStep now ev st).2 :: (runLoop (loopStep now ev st).1 rest).2) := by
          simp only [runLoop]
          rw [if_neg hsl]
        rw [hrun]
        obtain ⟨ihcnt, ihnode, ihslept⟩ := ih (loopStep now ev st).1
        refine ⟨?_, by rw [ihnode, hnode], ?_⟩
        · rw [countFired_cons, ihcnt, hcnt]
          omega
        · intro k h
          match k with
          | 0 =>
              simp only [List.get, List.take, countFired_cons, countFired_nil]
              have hne : (loopStep now ev st).1.msg_sent_cnt ≠ MSG_SENT_MAX := by
                intro hx
                exact hsl (hslept.mpr hx)
              rw [hcnt] at hne
              constructor
              · intro hx
                exact absurd hx hsl
              · intro hx
                exact absurd (by simpa using hx) hne
          | k + 1 =>
              have hk : k < (runLoop (loopStep now ev st).1 rest).2.length := by
                simpa using h
              have := ihslept k hk
              simp only [List.get_cons_succ, List.take_succ_cons, countFired_cons]
              rw [this, hcnt]
              constructor <;> intro hx <;> omega

/-- C7: starting from the state at the end of `setup`, the send counter is
incremented by exactly one per telemetry firing (the final counter equals the
number of fired passes), and deep sleep is invoked exactly on the pass whose
cumulative firing count reaches MSG_SENT_MAX = 5 - never on an earlier pass,
and within that same pass (the trace ends there). -/
theorem C7_sleep_on_fifth_firing (n : Node) (inputs : List (Nat × Option InEvent)) :
    (runLoop (initState n) inputs).1.msg_sent_cnt =
      countFired (runLoop (initState n) inputs).2 ∧
    ∀ k (h : k < (runLoop (initState n) inputs).2.length),
      (((runLoop (initState n) inputs).2.get ⟨k, h⟩).slept = true ↔
        countFired ((runLoop (initState n) inputs).2.take (k + 1)) = MSG_SENT_MAX) := by
  obtain ⟨hcnt, _, hslept⟩ := runLoop_spec inputs (initState n)
  refine ⟨by simpa [initState] using hcnt, ?_⟩
  intro k hk
  simpa [initState] using hslept k hk

/-- C7 witness: five passes at millis 9000, ..., 45000 from node `nodeA`; the
counter ends at the number of firings and the fifth pass is the sleeping one. -/
theorem C7_sleep_on_fifth_firing_witness :
    (runLoop (initState nodeA) inputsFive).1.msg_sent_cnt =
      countFired (runLoop (initState nodeA) inputsFive).2 ∧
    (((runLoop (initState nodeA) inputsFive).2.get ⟨4, by decide⟩).slept = true ↔
      countFired ((runLoop (initState nodeA) inputsFive).2.take 5) = MSG_SENT_MAX) :=
  ⟨(C7_sleep_on_fifth_firing nodeA inputsFive).1,
   (C7_sleep_on_fifth_firing nodeA inputsFive).2 4 (by decide)⟩

/-- C8 counterexample: in the firing pass at millis 9000 from the initial state
of node `nodeA`, the transmitted telemetry datagram is fillBuffer's packet,
whose embedded source field is the uplink local address 192.168.4.7 and not
the Link-Formation derived ownAddress 192.168.11.1, contradicting
"source field is ownAddress". -/
theorem C8_source_not_own_address :
    (loopStep 9000 none (initState nodeA)).2.fired = true ∧
    (loopStep 9000 none (initState nodeA)).2.sent =
      [⟨nodeA.sup_gateway_IP, UDP_PORT, fillBuffer nodeA⟩] ∧
    (parseMsg (fillBuffer nodeA)).srcIP = nodeA.localIP ∧
    (parseMsg (fillBuffer nodeA)).srcIP ≠ nodeA.own_IP := by decide

/-- C8 (amended): every pass on which the telemetry timer fires transmits the
packet built by fillBuffer - embedded destination = upstream neighbor
(`sup_gateway_IP`), embedded source = the uplink-assigned local address
(`WiFi.localIP()`, not the derived `own_IP`), payload = the fixed marker byte
65 - addressed to the upstream neighbor at the well-known port, and increments
the bounded send counter by exactly one. -/
theorem C8_telemetry (st : MachineState) (now : Nat) (ev : Option InEvent)
    (hf : (loopStep now ev st).2.fired = true) :
    (⟨st.node.sup_gateway_IP, UDP_PORT, fillBuffer st.node⟩ : Outbound) ∈
      (loopStep now ev st).2.sent ∧
    fillBuffer st.node = encodeMsg ⟨st.node.sup_gateway_IP, st.node.localIP, [65]⟩ ∧
    (loopStep now ev st).1.msg_sent_cnt = st.msg_sent_cnt + 1 ∧
    (loopStep now ev st).1.txBuffer = fillBuffer st.node := by
  unfold loopStep at hf ⊢
  cases ev <;> dsimp only at hf ⊢ <;> split_ifs at hf ⊢ <;>
    simp_all [fillBuffer, encodeMsg]

/-- C8 witness: the telemetry transmission evaluated on the firing pass at
millis 9000 from the initial state of node `nodeA`. -/
theorem C8_telemetry_witness :
    ((loopStep 9000 none (initState nodeA)).2.fired = true) ∧
    ((⟨(initState nodeA).node.sup_gateway_IP, UDP_PORT,
        fillBuffer (initState nodeA).node⟩ : Outbound) ∈
      (loopStep 9000 none (initState nodeA)).2.sent) ∧
    (loopStep 9000 none (initState nodeA)).1.msg_sent_cnt =
      (initState nodeA).msg_sent_cnt + 1 :=
  ⟨by decide, (C8_telemetry (initState nodeA) 9000 none (by decide)).1,
   (C8_telemetry (initState nodeA) 9000 none (by decide)).2.2.1⟩

/-- C10: the node identity fields set during Link Formation (own/local address,
downstream subnet and its broadcast address, upstream neighbor and the derived
network values) are write-once: no pass of `loop` - inbound processing and
forwarding, telemetry transmission, or the sleep-threshold check - modifies
them, whether taken singly or over a whole run; only the buffers, the parsed
scratch message, the ephemeral subnet values, the timer and the send counter
live in the remaining mutable fields. -/
theorem C10_identity_write_once (st : MachineState) :
    (∀ now ev, (loopStep now ev st).1.node = st.node) ∧
    (∀ inputs, (runLoop st inputs).1.node = st.node) :=
  ⟨fun now ev => (loopStep_cnt now ev st).2.2,
   fun inputs => (runLoop_spec inputs st).2.1⟩
